import Mathlib

/-!
Verification of the T2-PVD ETL pipeline (src/utils.py, src/utils_streamlit.py)
against its natural-language specification.

The development shallowly embeds the data transformations of the repository:
pandas Series become Lean lists of optional values (None models pd.NA/NaN),
DataFrames become association lists from column names to columns (or row
lists for the row-oriented operations), and machine floats on monetary data
are modelled with exact rationals, which is faithful for the decimal values
the pipeline manipulates.  Every definition follows the corresponding Python
function line by line; pandas/stdlib primitives (str.strip, str.replace with
regex=False, pd.to_numeric with errors="coerce", re.search, sort_values with
kind="mergesort") are embedded by small executable Lean functions documented
at their definitions.
-/

/-! ### Python string primitives -/

/-- Characters Python's str.strip() removes: ASCII whitespace. -/
def isPySpace (c : Char) : Bool :=
  c == ' ' || c == '\t' || c == '\n' || c == '\r' || c == '\x0b' || c == '\x0c'

/-- Drop characters satisfying p from both ends of a character list
(pandas Series.str.strip with a fixed character class). -/
def stripEnds (p : Char → Bool) (l : List Char) : List Char :=
  ((l.dropWhile p).reverse.dropWhile p).reverse

/-- Model of Series.str.strip() on one value. -/
def pyStrip (s : String) : String := ⟨stripEnds isPySpace s.data⟩

/-- Model of str.isPrefixOf on character lists. -/
def isPrefixList : List Char → List Char → Bool
  | [], _ => true
  | _ :: _, [] => false
  | p :: ps, c :: cs => p == c && isPrefixList ps cs

/-- Model of pandas Series.str.contains(pat, regex=False): literal substring
test. -/
def containsSub (pat : List Char) : List Char → Bool
  | [] => isPrefixList pat []
  | l@(_ :: rest) => isPrefixList pat l || containsSub pat rest

/-- Worker for replaceLit: when skip is positive the current character belongs
to an occurrence already replaced and is dropped; at skip zero the next
occurrence of the pattern is looked for. -/
def replaceLitAux (pat repl : List Char) : ℕ → List Char → List Char
  | _, [] => []
  | Nat.succ skip, _ :: rest => replaceLitAux pat repl skip rest
  | 0, c :: rest =>
    if isPrefixList pat (c :: rest) && pat.length > 0 then
      repl ++ replaceLitAux pat repl (pat.length - 1) rest
    else
      c :: replaceLitAux pat repl 0 rest

/-- Model of pandas Series.str.replace(pat, repl, regex=False): replace every
non-overlapping literal occurrence of pat, scanning left to right. -/
def replaceLit (pat repl : List Char) (l : List Char) : List Char :=
  replaceLitAux pat repl 0 l

/-- Model of the regex substitution str.replace(r"R\$|\$", "", regex=True):
each position either starts the literal match R$ (alternative one), starts the
literal match $ (alternative two), or is kept. -/
def removeCurrencySymbols : List Char → List Char
  | [] => []
  | 'R' :: '$' :: rest => removeCurrencySymbols rest
  | '$' :: rest => removeCurrencySymbols rest
  | c :: rest => c :: removeCurrencySymbols rest

/-- Numeric value of a digit list read in base 10. -/
def digitsToNat (l : List Char) : ℕ :=
  l.foldl (fun acc c => 10 * acc + (c.toNat - 48)) 0

/-- Model of pd.to_numeric(s, errors="coerce") on one cell holding plain
decimal notation: an optional sign, an integer part and an optional
fractional part, with at least one digit overall; anything else coerces to
null.  Exact rationals stand in for the float64 result. -/
def toNumeric? (l : List Char) : Option ℚ :=
  let signBody : ℚ × List Char :=
    match l with
    | '-' :: rest => (-1, rest)
    | '+' :: rest => (1, rest)
    | _ => (1, l)
  let sign := signBody.1
  let body := signBody.2
  let intPart := body.takeWhile Char.isDigit
  let rest := body.dropWhile Char.isDigit
  match rest with
  | [] => if body.isEmpty then none else some (sign * digitsToNat intPart)
  | '.' :: frac =>
    if frac.all Char.isDigit && !(intPart.isEmpty && frac.isEmpty) then
      some (sign * ((digitsToNat intPart : ℚ) + (digitsToNat frac : ℚ) / (10 ^ frac.length)))
    else none
  | _ => none

/-! ### Currency Parser (utils.py, parse_brazilian_currency_to_float) -/

/-- The cleanup prefix of parse_brazilian_currency_to_float on one cell:
str.strip(), str.strip of quote characters, removal of the currency symbols
R$ and $, and a final str.strip(). -/
def cleanCurrency (raw : String) : List Char :=
  stripEnds isPySpace
    (removeCurrencySymbols
      (stripEnds (fun c => c == '"') (stripEnds isPySpace raw.data)))

/-- The literal pattern the source hands to str.contains/str.replace with
regex=False for the thousands separator: the two characters backslash and
dot (the raw Python string r"\."), matched literally because regex=False. -/
def bslashDot : List Char := ['\\', '.']

/-- Embedding of parse_brazilian_currency_to_float (utils.py lines 437-476)
on one cell of a string-dtype Series (the numeric-dtype early return does not
apply to string cells; pd.NA propagates through every step, giving the
Option.bind).  The bucket tests and the separator removals use the literal
two-character pattern backslash-dot exactly as the source passes it with
regex=False. -/
def parse_brazilian_currency_to_float (v : Option String) : Option ℚ :=
  v.bind fun raw =>
    let s := cleanCurrency raw
    let isBrFormat := containsSub bslashDot s && containsSub [','] s
    let isSimpleBr := containsSub [','] s && !containsSub bslashDot s
    let cleaned :=
      if isBrFormat || isSimpleBr then
        replaceLit [','] ['.'] (replaceLit bslashDot [] s)
      else
        replaceLit [','] [] s
    toNumeric? cleaned

/-- The transformation the spec prescribes for values containing both a dot
and a comma, for comparison with the code: remove every dot character,
replace the comma with a dot, then parse. -/
def spec_brazilian_both_transform (s : List Char) : Option ℚ :=
  toNumeric? (replaceLit [','] ['.'] (replaceLit ['.'] [] s))

/-! ### Claims C1 and C2 (Currency Parser) -/

unseal Rat.add Rat.mul Rat.inv Rat.sub Rat.ofScientific in
/-- C1: the spec lists the Currency Parser examples "R$ 1.234,56" → 1234.56,
"600,00" → 600.00, "300.0" → 300.0, " $ 8,100.00 " → 8100.00 and
empty/whitespace-only → null.  The code reproduces only three of the five:
because the source passes the pattern r"\." to str.contains/str.replace with
regex=False, the two characters backslash-dot are matched literally, so dots
are never detected nor removed; any value containing a comma has its comma
turned into a dot with the original dots left in place, and "R$ 1.234,56"
and " $ 8,100.00 " both coerce to null instead of 1234.56 and 8100.00.
This theorem records the code's actual value on every listed example. -/
theorem c1_currency_examples_code_behavior :
    parse_brazilian_currency_to_float (some "R$ 1.234,56") = none ∧
    parse_brazilian_currency_to_float (some "600,00") = some 600 ∧
    parse_brazilian_currency_to_float (some "300.0") = some 300 ∧
    parse_brazilian_currency_to_float (some " $ 8,100.00 ") = none ∧
    parse_brazilian_currency_to_float (some "") = none ∧
    parse_brazilian_currency_to_float (some "   ") = none := by
  decide

unseal Rat.add Rat.mul Rat.inv Rat.sub Rat.ofScientific in
/-- C2: the spec says a value that (after cleanup) contains both a dot and a
comma is parsed by removing every dot and replacing the comma with a dot
(Brazilian convention), so "R$ 1.234,56" should yield 1234.56.  The code
instead leaves every dot in place (the literal pattern backslash-dot passed
with regex=False never matches) and only replaces the comma, so the cleaned
token "1.234.56" fails to parse and the cell coerces to null.  The cleaned
value does contain both separators, the spec transform yields 1234.56, and
the code yields null. -/
theorem c2_brazilian_convention_not_applied :
    (containsSub ['.'] (cleanCurrency "R$ 1.234,56") = true ∧
      containsSub [','] (cleanCurrency "R$ 1.234,56") = true) ∧
    spec_brazilian_both_transform (cleanCurrency "R$ 1.234,56") = some (1234.56 : ℚ) ∧
    parse_brazilian_currency_to_float (some "R$ 1.234,56") = none := by
  decide

/-! ### Column Mapper (utils.py, CANONICAL_COLS, MAP_2022/2023/2024,
normalize_columns) -/

/-- The canonical 28-column schema (utils.py lines 251-281), in order. -/
def CANONICAL_COLS : List String :=
  ["ANO_REFERENCIA", "PROCESSO", "DATA_INICIO_PROCESSO", "DATA_TERMINO_PROCESSO",
   "BENEFICIARIO", "CPF_HASH", "LINHA_FOMENTO", "MODALIDADE", "CATEGORIA_NIVEL",
   "NOME_CHAMADA", "PROGRAMA_CNPQ", "GRANDE_AREA", "AREA", "SUBAREA",
   "INSTITUICAO_ORIGEM", "SIGLA_UF_ORIGEM", "PAIS_ORIGEM", "INSTITUICAO_DESTINO",
   "SIGLA_INSTITUICAO_DESTINO", "SIGLA_INSTITUICAO_MACRO", "CIDADE_DESTINO",
   "SIGLA_UF_DESTINO", "REGIAO_DESTINO", "PAIS_DESTINO", "TITULO_PROJETO",
   "PALAVRA_CHAVE", "UO", "NATUREZA_DESPESA", "VALOR_PAGO"]

/-- The 2022 rename table (utils.py lines 284-313). -/
def MAP_2022 : List (String × String) :=
  [("Ano Referência", "ANO_REFERENCIA"), ("Processo", "PROCESSO"),
   ("Data Início Processo", "DATA_INICIO_PROCESSO"),
   ("Data Término Processo", "DATA_TERMINO_PROCESSO"),
   ("Beneficiário", "BENEFICIARIO"), ("Linha de Fomento", "LINHA_FOMENTO"),
   ("Modalidade", "MODALIDADE"), ("Categoria/Nível", "CATEGORIA_NIVEL"),
   ("Nome Chamada", "NOME_CHAMADA"), ("Programa CNPq", "PROGRAMA_CNPQ"),
   ("Grande Área", "GRANDE_AREA"), ("Área", "AREA"), ("Subárea", "SUBAREA"),
   ("Instituição Origem", "INSTITUICAO_ORIGEM"),
   ("Sigla UF Origem", "SIGLA_UF_ORIGEM"), ("País Origem", "PAIS_ORIGEM"),
   ("Instituição Destino", "INSTITUICAO_DESTINO"),
   ("Sigla Instituição Destino", "SIGLA_INSTITUICAO_DESTINO"),
   ("Sigla Instituição Macro", "SIGLA_INSTITUICAO_MACRO"),
   ("Cidade Destino", "CIDADE_DESTINO"), ("Sigla UF Destino", "SIGLA_UF_DESTINO"),
   ("Região Destino", "REGIAO_DESTINO"), ("País Destino", "PAIS_DESTINO"),
   ("Título do Projeto", "TITULO_PROJETO"), ("Palavra Chave", "PALAVRA_CHAVE"),
   ("UO", "UO"), ("Natureza de Despesa", "NATUREZA_DESPESA"),
   ("Valor Pago", "VALOR_PAGO")]

/-- The 2023 rename table (utils.py lines 316-344). -/
def MAP_2023 : List (String × String) :=
  [("ANO_REFERENCIA", "ANO_REFERENCIA"), ("PROCESSO", "PROCESSO"),
   ("DATA_INICIO_PROCESSO", "DATA_INICIO_PROCESSO"),
   ("DATA_TERMINO_PROCESSO", "DATA_TERMINO_PROCESSO"),
   ("BENEFICIARIO", "BENEFICIARIO"), ("NU_CPF", "CPF_HASH"),
   ("LINHA_FOMENTO", "LINHA_FOMENTO"), ("MODALIDADE", "MODALIDADE"),
   ("CATEGORIA_NIVEL", "CATEGORIA_NIVEL"), ("NOME_CHAMADA", "NOME_CHAMADA"),
   ("PROGRAMA_CNPQ", "PROGRAMA_CNPQ"), ("GRANDE_AREA", "GRANDE_AREA"),
   ("AREA", "AREA"), ("SUBAREA", "SUBAREA"),
   ("INSTITUICAO_ORIGEM", "INSTITUICAO_ORIGEM"),
   ("SIGLA_UF_ORIGEM", "SIGLA_UF_ORIGEM"), ("PAIS_ORIGEM", "PAIS_ORIGEM"),
   ("INSTITUICAO_DESTINO", "INSTITUICAO_DESTINO"),
   ("SIGLA_INSTITUICAO_DESTINO", "SIGLA_INSTITUICAO_DESTINO"),
   ("SIGLA_INSTITUICAO_MACRO", "SIGLA_INSTITUICAO_MACRO"),
   ("CIDADE_DESTINO", "CIDADE_DESTINO"), ("SIGLA_UF_DESTINO", "SIGLA_UF_DESTINO"),
   ("REGIAO", "REGIAO_DESTINO"), ("PAIS_DESTINO", "PAIS_DESTINO"),
   ("TITULO_PROJETO", "TITULO_PROJETO"), ("PALAVRA_CHAVE", "PALAVRA_CHAVE"),
   ("VALOR_PAGO", "VALOR_PAGO")]

/-- The 2024 rename table (utils.py lines 347-375). -/
def MAP_2024 : List (String × String) :=
  [("ANO_REFERENCIA", "ANO_REFERENCIA"), ("PROCESSO", "PROCESSO"),
   ("DATA_INICIO_PROCESSO", "DATA_INICIO_PROCESSO"),
   ("DATA_TERMINO_PROCESSO", "DATA_TERMINO_PROCESSO"),
   ("BENEFICIARIO", "BENEFICIARIO"), ("CPF ANONIMIZADO", "CPF_HASH"),
   ("LINHA_FOMENTO", "LINHA_FOMENTO"), ("MODALIDADE", "MODALIDADE"),
   ("CATEGORIA_NIVEL", "CATEGORIA_NIVEL"), ("NOME_CHAMADA", "NOME_CHAMADA"),
   ("PROGRAMA_CNPQ", "PROGRAMA_CNPQ"), ("GRANDE_AREA", "GRANDE_AREA"),
   ("AREA", "AREA"), ("SUBAREA", "SUBAREA"),
   ("INSTITUICAO_ORIGEM", "INSTITUICAO_ORIGEM"),
   ("SIGLA_UF_ORIGEM", "SIGLA_UF_ORIGEM"), ("PAIS_ORIGEM", "PAIS_ORIGEM"),
   ("INSTITUICAO_DESTINO", "INSTITUICAO_DESTINO"),
   ("SIGLA_INSTITUICAO_DESTINO", "SIGLA_INSTITUICAO_DESTINO"),
   ("SIGLA_INSTITUICAO_MACRO", "SIGLA_INSTITUICAO_MACRO"),
   ("CIDADE_DESTINO", "CIDADE_DESTINO"), ("SIGLA_UF_DESTINO", "SIGLA_UF_DESTINO"),
   ("REGIAO", "REGIAO_DESTINO"), ("PAIS_DESTINO", "PAIS_DESTINO"),
   ("TITULO_PROJETO", "TITULO_PROJETO"), ("PALAVRA_CHAVE", "PALAVRA_CHAVE"),
   ("VALOR_PAGO", "VALOR_PAGO")]

/-- A DataFrame for the column-oriented operations: an ordered association
list from column name to column values; a cell of None models pd.NA. -/
abbrev Frame (α : Type) := List (String × List (Option α))

/-- Row count of a frame as pandas tracks it through the index; for the raw
frames normalize_columns receives (read_csv output, at least one column) the
length of the first column. -/
def nRows (df : Frame α) : ℕ :=
  match df with
  | [] => 0
  | c :: _ => c.2.length

/-- Model of df.rename(columns=mapping) on one column name: the dict lookup,
the name itself when absent. -/
def renameCol (mapping : List (String × String)) (c : String) : String :=
  match mapping.lookup c with
  | some c2 => c2
  | none => c

/-- The column names of a frame after the strip + rename steps of
normalize_columns. -/
def processedCols (df : Frame α) (mapping : List (String × String)) : Frame α :=
  df.map (fun p => (renameCol mapping (pyStrip p.1), p.2))

/-- One canonical-name block of the normalize_columns output: every
processed column bearing that canonical name, in frame order — pandas keeps
duplicate labels, so df[keep] and the final df[CANONICAL_COLS] return all
columns sharing a label — or one column of pd.NA when no processed column
bears the name. -/
def canonBlock (renamed : Frame α) (n : ℕ) (c : String) : Frame α :=
  let cols := renamed.filter (fun p => p.1 == c)
  if cols.isEmpty then [(c, List.replicate n none)] else cols

/-- Embedding of normalize_columns (utils.py lines 378-400): strip whitespace
from the column names, apply the year mapping, select the canonical columns
in canonical order (df[keep] keeps every column sharing a selected label, in
frame order), create every absent canonical column filled with pd.NA, and
reorder to CANONICAL_COLS (df[CANONICAL_COLS], which again expands duplicate
labels in place). -/
def normalize_columns (df : Frame α) (mapping : List (String × String)) : Frame α :=
  CANONICAL_COLS.flatMap (canonBlock (processedCols df mapping) (nRows df))

/-- The columns of a frame bearing one label, in frame order (what selecting
that label returns under pandas duplicate-label semantics). -/
def colsNamed (f : Frame α) (c : String) : Frame α :=
  f.filter (fun p => p.1 == c)

/-! ### Claim C3 (Column Mapper) -/

/-- C3 counterexample: three ways the claim misses the code.  The raw
2023-style column "UO" is not a key of MAP_2023, yet normalize_columns keeps
its values (after strip and rename its name is still "UO", a canonical name,
so the canonical selection retains it where the claim requires it dropped and
the column all-null).  The canonical schema has 29 columns, not 28.  And two
raw columns whose processed names collide (raw "PROCESSO" and "PROCESSO "
both strip to "PROCESSO") are BOTH kept as duplicate labels, giving a
30-column output rather than exactly the canonical columns. -/
theorem c3_unmapped_raw_column_kept :
    MAP_2023.lookup "UO" = none ∧
    (normalize_columns ([("UO", [some "10000"])] : Frame String) MAP_2023).lookup "UO"
      = some [some "10000"] ∧
    some [some "10000"] ≠ some [(none : Option String)] ∧
    CANONICAL_COLS.length = 29 ∧
    (normalize_columns
        ([("PROCESSO", [some "1"]), ("PROCESSO ", [some "2"])] : Frame String)
        MAP_2023).length = 30 ∧
    colsNamed
        (normalize_columns
          ([("PROCESSO", [some "1"]), ("PROCESSO ", [some "2"])] : Frame String)
          MAP_2023) "PROCESSO"
      = [("PROCESSO", [some "1"]), ("PROCESSO", [some "2"])] := by
  refine ⟨by decide, by decide, by decide, by decide, by decide, by decide⟩

theorem canonBlock_names (renamed : Frame α) (n : ℕ) (c : String) :
    ∀ p ∈ canonBlock renamed n c, p.1 = c := by
  intro p hp
  unfold canonBlock at hp
  by_cases h : (renamed.filter (fun p => p.1 == c)).isEmpty
  · rw [if_pos h] at hp
    rw [List.mem_singleton] at hp
    rw [hp]
  · rw [if_neg h] at hp
    exact eq_of_beq (List.mem_filter.mp hp).2

theorem filter_canonBlock_self (renamed : Frame α) (n : ℕ) (c : String) :
    (canonBlock renamed n c).filter (fun p => p.1 == c) = canonBlock renamed n c := by
  rw [List.filter_eq_self]
  intro p hp
  rw [canonBlock_names renamed n c p hp]
  exact beq_self_eq_true c

theorem filter_canonBlock_ne (renamed : Frame α) (n : ℕ) {c c2 : String}
    (hne : c2 ≠ c) :
    (canonBlock renamed n c2).filter (fun p => p.1 == c) = [] := by
  rw [List.filter_eq_nil_iff]
  intro p hp
  rw [canonBlock_names renamed n c2 p hp]
  simp [hne]

/-- Concatenating the per-name filters of the blocks of a duplicate-free name
list collapses to the one block of the name selected. -/
theorem flatMap_filter_blocks (renamed : Frame α) (n : ℕ) (c : String) :
    ∀ L : List String, L.Nodup → c ∈ L →
      (L.flatMap fun c2 => (canonBlock renamed n c2).filter (fun p => p.1 == c))
        = canonBlock renamed n c := by
  intro L
  induction L with
  | nil => intro _ hc; cases hc
  | cons a L ih =>
    intro hnd hc
    rw [List.flatMap_cons]
    by_cases hac : a = c
    · subst hac
      rw [filter_canonBlock_self]
      have htail :
          (L.flatMap fun c2 => (canonBlock renamed n c2).filter (fun p => p.1 == a))
            = [] := by
        rw [List.flatMap_eq_nil_iff]
        intro c2 hc2
        exact filter_canonBlock_ne renamed n
          (fun h => (List.nodup_cons.mp hnd).1 (h ▸ hc2))
      rw [htail, List.append_nil]
    · rw [filter_canonBlock_ne renamed n hac, List.nil_append]
      have hcL : c ∈ L := by
        rcases List.mem_cons.mp hc with h | h
        · exact absurd h.symm hac
        · exact h
      exact ih (List.nodup_cons.mp hnd).2 hcL

/-- Selecting one canonical label from the normalize_columns output yields
exactly that label's block. -/
theorem colsNamed_normalize (α : Type) (df : Frame α)
    (mapping : List (String × String)) (c : String) (hc : c ∈ CANONICAL_COLS) :
    colsNamed (normalize_columns df mapping) c
      = canonBlock (processedCols df mapping) (nRows df) c := by
  unfold colsNamed normalize_columns
  rw [List.filter_flatMap]
  exact flatMap_filter_blocks (processedCols df mapping) (nRows df) c
    CANONICAL_COLS (by decide) hc

/-- With pairwise distinct processed names every block is one column named by
its canonical label. -/
theorem canonBlock_names_nodup (renamed : Frame α) (n : ℕ)
    (hnd : (renamed.map Prod.fst).Nodup) (c : String) :
    (canonBlock renamed n c).map Prod.fst = [c] := by
  unfold canonBlock
  cases h : renamed.filter (fun p => p.1 == c) with
  | nil => rfl
  | cons q qs =>
    show (q :: qs).map Prod.fst = [c]
    have hqmem : q ∈ renamed.filter (fun p => p.1 == c) := by
      rw [h]
      exact List.mem_cons_self q qs
    have hq : q.1 = c := eq_of_beq (List.mem_filter.mp hqmem).2
    cases qs with
    | nil => simp [hq]
    | cons q2 rest =>
      exfalso
      have hsub : List.Sublist (q :: q2 :: rest) renamed := by
        rw [← h]
        exact List.filter_sublist renamed
      have hnd2 : ((q :: q2 :: rest).map Prod.fst).Nodup :=
        hnd.sublist (hsub.map Prod.fst)
      have hq2mem : q2 ∈ renamed.filter (fun p => p.1 == c) := by
        rw [h]
        exact List.mem_cons_of_mem q (List.mem_cons_self q2 rest)
      have hq2 : q2.1 = c := eq_of_beq (List.mem_filter.mp hq2mem).2
      apply (List.nodup_cons.mp hnd2).1
      rw [List.map_cons, List.mem_cons, hq, hq2]
      exact Or.inl rfl

/-- C3 (amended): the canonical schema has 29 columns (not 28); every column
normalize_columns returns bears a canonical name, so every raw column whose
stripped-and-renamed name is not canonical is dropped — but a raw column
whose name IS canonical is kept even when absent from the mapping; for each
canonical name the output's columns under that label are exactly the
processed columns bearing it, in frame order (so colliding names survive as
pandas duplicate labels), or one all-null column when there is none; and
whenever the processed names are pairwise distinct the output is exactly the
29 canonical columns in canonical order. -/
theorem c3_normalize_columns_amended (α : Type) (df : Frame α)
    (mapping : List (String × String)) :
    CANONICAL_COLS.length = 29 ∧
    (∀ p ∈ normalize_columns df mapping, p.1 ∈ CANONICAL_COLS) ∧
    (∀ c ∈ CANONICAL_COLS,
      (colsNamed (processedCols df mapping) c = [] →
        colsNamed (normalize_columns df mapping) c
          = [(c, List.replicate (nRows df) none)]) ∧
      (colsNamed (processedCols df mapping) c ≠ [] →
        colsNamed (normalize_columns df mapping) c
          = colsNamed (processedCols df mapping) c)) ∧
    (((processedCols df mapping).map Prod.fst).Nodup →
      (normalize_columns df mapping).map Prod.fst = CANONICAL_COLS) := by
  refine ⟨by decide, ?_, ?_, ?_⟩
  · intro p hp
    unfold normalize_columns at hp
    obtain ⟨c, hc, hpc⟩ := List.mem_flatMap.mp hp
    rw [canonBlock_names (processedCols df mapping) (nRows df) c p hpc]
    exact hc
  · intro c hc
    rw [colsNamed_normalize α df mapping c hc]
    unfold colsNamed canonBlock
    constructor
    · intro hempty
      rw [if_pos (by rw [hempty]; rfl)]
    · intro hne
      rw [if_neg (by
        intro hemp
        exact hne (List.isEmpty_iff.mp hemp))]
  · intro hnd
    unfold normalize_columns
    rw [List.map_flatMap]
    have hone : ∀ c : String,
        (canonBlock (processedCols df mapping) (nRows df) c).map Prod.fst
          = [c] :=
      canonBlock_names_nodup (processedCols df mapping) (nRows df) hnd
    calc (CANONICAL_COLS.flatMap fun c =>
            (canonBlock (processedCols df mapping) (nRows df) c).map Prod.fst)
        = CANONICAL_COLS.flatMap (fun c => [c]) := by
          congr 1
          exact funext hone
      _ = CANONICAL_COLS := List.flatMap_singleton' CANONICAL_COLS

/-- C3 witness: the amended theorem applied to a concrete one-column frame
under MAP_2023; the canonical column AREA has no source column there and
comes back as one null-filled column. -/
theorem c3_witness :
    colsNamed (normalize_columns ([(" PROCESSO ", [some 7])] : Frame ℕ) MAP_2023)
        "AREA"
      = [("AREA", List.replicate 1 none)] :=
  ((c3_normalize_columns_amended ℕ [(" PROCESSO ", [some 7])] MAP_2023).2.2.1
    "AREA" (by decide)).1 (by decide)

/-! ### Unifier (utils.py, unify_pagamentos) -/

/-- A row of a canonical per-year frame, restricted to the three key columns
dropna and sort_values consult — ANO_REFERENCIA (Int64, None models NA),
PROCESSO (string, None models NA), VALOR_PAGO (float64, None models NaN) —
plus the remaining 25 canonical cells bundled opaquely as rest, so distinct
rows stay distinct. -/
structure PagRow (α : Type) where
  ano : Option Int
  processo : Option String
  valor : Option ℚ
  rest : α
deriving DecidableEq

/-- The dropna(how="all", subset=[ANO_REFERENCIA, PROCESSO, VALOR_PAGO])
predicate: a row is dropped exactly when all three key cells are NA. -/
def keyAllNull (r : PagRow α) : Bool :=
  r.ano.isNone && r.processo.isNone && r.valor.isNone

/-- Python string comparison on code points, lexicographic (the order
pandas uses for an object/string sort key). -/
def charListLe : List Char → List Char → Bool
  | [], _ => true
  | _ :: _, [] => false
  | a :: as, b :: bs =>
    if a.toNat < b.toNat then true
    else if b.toNat < a.toNat then false
    else charListLe as bs

/-- Strict order on the Int64 sort key with NA greatest (na_position last). -/
def anoLt : Option Int → Option Int → Bool
  | some a, some b => decide (a < b)
  | some _, none => true
  | none, _ => false

/-- Tie test on the Int64 sort key; the NA rows tie among themselves and the
tie is broken by the second key. -/
def anoEq : Option Int → Option Int → Bool
  | none, none => true
  | some a, some b => a == b
  | _, _ => false

/-- Non-strict order on the string sort key with NA greatest. -/
def procLe : Option String → Option String → Bool
  | _, none => true
  | none, some _ => false
  | some a, some b => charListLe a.data b.data

/-- The lexicographic (ANO_REFERENCIA, PROCESSO) sort key of
sort_values(by=[ANO_REFERENCIA, PROCESSO], na_position="last"). -/
def rowLE (r s : PagRow α) : Bool :=
  anoLt r.ano s.ano || (anoEq r.ano s.ano && procLe r.processo s.processo)

/-- Embedding of unify_pagamentos (utils.py lines 599-633): concatenate the
2022, 2023 and 2024 canonical frames in that order, drop the rows whose three
key cells are all NA, and stably sort by the (year, process) key —
kind="mergesort" is pandas' stable sort, modelled by List.mergeSort. -/
def unify_pagamentos (d22 d23 d24 : List (PagRow α)) : List (PagRow α) :=
  (((d22 ++ d23 ++ d24).filter (fun r => !keyAllNull r)).mergeSort rowLE)

theorem charListLe_total : ∀ l m, (charListLe l m || charListLe m l) = true := by
  intro l
  induction l with
  | nil => intro m; simp [charListLe]
  | cons a as ih =>
    intro m
    cases m with
    | nil => simp [charListLe]
    | cons b bs =>
      rcases Nat.lt_trichotomy a.toNat b.toNat with h | h | h
      · simp [charListLe, h]
      · have e1 : charListLe (a :: as) (b :: bs) = charListLe as bs := by
          simp [charListLe, h, Nat.lt_irrefl]
        have e2 : charListLe (b :: bs) (a :: as) = charListLe bs as := by
          simp [charListLe, h, Nat.lt_irrefl]
        rw [e1, e2]
        exact ih bs
      · simp [charListLe, h, Nat.lt_asymm h]

theorem charListLe_trans :
    ∀ l m n, charListLe l m = true → charListLe m n = true →
      charListLe l n = true := by
  intro l
  induction l with
  | nil => intro m n h1 h2; simp [charListLe]
  | cons a as ih =>
    intro m n h1 h2
    cases m with
    | nil => simp [charListLe] at h1
    | cons b bs =>
      cases n with
      | nil => simp [charListLe] at h2
      | cons c cs =>
        simp only [charListLe] at h1 h2 ⊢
        rcases Nat.lt_trichotomy a.toNat b.toNat with hab | hab | hab
        · rcases Nat.lt_trichotomy b.toNat c.toNat with hbc | hbc | hbc
          · simp [Nat.lt_trans hab hbc]
          · simp [hbc ▸ hab]
          · simp [hbc, Nat.lt_asymm hbc] at h2
        · rcases Nat.lt_trichotomy b.toNat c.toNat with hbc | hbc | hbc
          · simp [hab ▸ hbc]
          · have hac : a.toNat = c.toNat := hab.trans hbc
            simp only [hab, Nat.lt_irrefl, if_false] at h1
            simp only [hbc, Nat.lt_irrefl, if_false] at h2
            simp only [hac, Nat.lt_irrefl, if_false]
            exact ih bs cs h1 h2
          · simp [hbc, Nat.lt_asymm hbc] at h2
        · simp [hab, Nat.lt_asymm hab] at h1

theorem procLe_total : ∀ p q, (procLe p q || procLe q p) = true := by
  intro p q
  cases p with
  | none => cases q <;> simp [procLe]
  | some a =>
    cases q with
    | none => simp [procLe]
    | some b => simpa [procLe] using charListLe_total a.data b.data

theorem procLe_trans :
    ∀ p q r, procLe p q = true → procLe q r = true → procLe p r = true := by
  intro p q r h1 h2
  cases p <;> cases q <;> cases r <;> simp [procLe] at *
  exact charListLe_trans _ _ _ h1 h2

theorem rowLE_total (r s : PagRow α) : (rowLE r s || rowLE s r) = true := by
  obtain ⟨a, p, v, x⟩ := r
  obtain ⟨b, q, w, y⟩ := s
  simp only [rowLE]
  cases a with
  | none =>
    cases b with
    | none =>
      simp only [anoLt, anoEq, Bool.false_or, Bool.true_and]
      exact procLe_total p q
    | some b => simp [anoLt, anoEq]
  | some a =>
    cases b with
    | none => simp [anoLt, anoEq]
    | some b =>
      rcases Int.lt_trichotomy a b with h | h | h
      · simp [anoLt, h]
      · subst h
        simp only [anoLt, anoEq, Int.lt_irrefl, decide_False,
          beq_self_eq_true, Bool.true_and, Bool.false_or]
        exact procLe_total p q
      · simp [anoLt, h]

theorem rowLE_trans (r s t : PagRow α) (h1 : rowLE r s = true)
    (h2 : rowLE s t = true) : rowLE r t = true := by
  obtain ⟨a, p, v, x⟩ := r
  obtain ⟨b, q, w, y⟩ := s
  obtain ⟨c, u, z, k⟩ := t
  simp only [rowLE] at h1 h2 ⊢
  cases a with
  | none =>
    cases b with
    | some b => simp [anoLt, anoEq] at h1
    | none =>
      cases c with
      | some c => simp [anoLt, anoEq] at h2
      | none =>
        simp only [anoLt, anoEq, Bool.false_or, Bool.true_and] at h1 h2 ⊢
        exact procLe_trans p q u h1 h2
  | some a =>
    cases b with
    | none =>
      cases c with
      | some c => simp [anoLt, anoEq] at h2
      | none => simp [anoLt]
    | some b =>
      cases c with
      | none => simp [anoLt]
      | some c =>
        simp only [anoLt, anoEq, Bool.or_eq_true, Bool.and_eq_true,
          decide_eq_true_eq, beq_iff_eq] at h1 h2 ⊢
        rcases h1 with h1 | h1 <;> rcases h2 with h2 | h2
        · exact Or.inl (Int.lt_trans h1 h2)
        · exact Or.inl (h2.1 ▸ h1)
        · exact Or.inl (h1.1 ▸ h2)
        · exact Or.inr ⟨h1.1.trans h2.1, procLe_trans p q u h1.2 h2.2⟩

/-! ### Claims C4 and C5 (Unifier) -/

/-- C4: a row of the concatenated per-year inputs is absent from the
Unifier's output exactly when its reference year, process id and paid amount
are all null at once; in particular a row with a non-null process id but null
paid amount is retained (the right side holds for it). -/
theorem c4_unify_membership (α : Type) (d22 d23 d24 : List (PagRow α))
    (r : PagRow α) (h : r ∈ d22 ++ d23 ++ d24) :
    (r ∈ unify_pagamentos d22 d23 d24 ↔
      ¬(r.ano = none ∧ r.processo = none ∧ r.valor = none)) := by
  unfold unify_pagamentos
  rw [List.mem_mergeSort, List.mem_filter]
  simp only [h, true_and, Bool.not_eq_true', keyAllNull,
    Bool.and_eq_false_iff, Option.isNone_eq_false_iff, Option.isSome_iff_ne_none]
  tauto

/-- C4 witness: in a concrete 2022 frame, the row with a process id but no
paid amount survives unification while the all-null-key row is dropped. -/
theorem c4_witness :
    ((⟨none, some "P1", none, 0⟩ : PagRow ℕ)
        ∈ unify_pagamentos
            [⟨none, some "P1", none, 0⟩, ⟨none, none, none, 1⟩] [] []) ∧
    ¬((⟨none, none, none, 1⟩ : PagRow ℕ)
        ∈ unify_pagamentos
            [⟨none, some "P1", none, 0⟩, ⟨none, none, none, 1⟩] [] []) :=
  ⟨(c4_unify_membership ℕ [⟨none, some "P1", none, 0⟩, ⟨none, none, none, 1⟩]
      [] [] ⟨none, some "P1", none, 0⟩ (by decide)).mpr (by simp),
   fun hm =>
     (c4_unify_membership ℕ [⟨none, some "P1", none, 0⟩, ⟨none, none, none, 1⟩]
       [] [] ⟨none, none, none, 1⟩ (by decide)).mp hm ⟨rfl, rfl, rfl⟩⟩

/-- From one sort-key comparison: a null year is followed only by null years,
and non-null years are nondecreasing. -/
theorem rowLE_year_mono (a b : PagRow α) (h : rowLE a b = true) :
    (a.ano = none → b.ano = none) ∧
    (∀ x y : Int, a.ano = some x → b.ano = some y → x ≤ y) := by
  simp only [rowLE, Bool.or_eq_true, Bool.and_eq_true] at h
  constructor
  · intro hna
    rw [hna] at h
    cases hb : b.ano with
    | none => rfl
    | some c =>
      rw [hb] at h
      simp [anoLt, anoEq] at h
  · intro x y hx hy
    rw [hx, hy] at h
    simp only [anoLt, anoEq, decide_eq_true_eq, beq_iff_eq] at h
    rcases h with h | h
    · exact Int.le_of_lt h
    · exact le_of_eq h.1

/-- C5: the Unifier's output is sorted under the (year, process) key with
nulls last (every pair in output order satisfies rowLE, so in particular a
row with a null year is never followed by a non-null year); the mergesort is
stable, so any two rows of the filtered concatenation — whose order is 2022
then 2023 then 2024 — that compare favourably, ties included, keep their
relative order; and adjacent output rows with non-null years have
nondecreasing years. -/
theorem c5_unify_sorted_stable (α : Type) (d22 d23 d24 : List (PagRow α)) :
    List.Pairwise (fun a b => rowLE a b = true) (unify_pagamentos d22 d23 d24) ∧
    (∀ a b : PagRow α,
      List.Sublist [a, b] ((d22 ++ d23 ++ d24).filter (fun r => !keyAllNull r)) →
      rowLE a b = true →
      List.Sublist [a, b] (unify_pagamentos d22 d23 d24)) ∧
    List.Chain' (fun a b =>
      (a.ano = none → b.ano = none) ∧
      ∀ x y : Int, a.ano = some x → b.ano = some y → x ≤ y)
      (unify_pagamentos d22 d23 d24) := by
  have htr : ∀ a b c : PagRow α, rowLE a b = true → rowLE b c = true →
      rowLE a c = true :=
    fun a b c h1 h2 => rowLE_trans a b c h1 h2
  have hto : ∀ a b : PagRow α, (rowLE a b || rowLE b a) = true :=
    fun a b => rowLE_total a b
  have hs : List.Pairwise (fun a b => rowLE a b = true)
      (unify_pagamentos d22 d23 d24) :=
    List.sorted_mergeSort htr hto _
  refine ⟨hs, ?_, ?_⟩
  · intro a b hsub hab
    exact List.pair_sublist_mergeSort htr hto hab hsub
  · exact (hs.imp (fun hab => rowLE_year_mono _ _ hab)).chain'

/-- C5 witness: two tied rows of the 2022 input keep their input order in the
unified output. -/
theorem c5_witness :
    List.Sublist
      [(⟨some 2022, some "A", none, 0⟩ : PagRow ℕ), ⟨some 2022, some "A", none, 1⟩]
      (unify_pagamentos
        [⟨some 2022, some "A", none, 0⟩, ⟨some 2022, some "A", none, 1⟩] [] []) := by
  apply (c5_unify_sorted_stable ℕ
    [⟨some 2022, some "A", none, 0⟩, ⟨some 2022, some "A", none, 1⟩] [] []).2.1
  · have e : (([(⟨some 2022, some "A", none, 0⟩ : PagRow ℕ),
        ⟨some 2022, some "A", none, 1⟩] ++ [] ++ []).filter
          (fun r => !keyAllNull r))
        = [⟨some 2022, some "A", none, 0⟩, ⟨some 2022, some "A", none, 1⟩] := by
      decide
    rw [e]
  · decide

/-! ### Type Coercer, reference year (utils.py lines 520-531) -/

/-- Four consecutive ASCII digits at the head of the text, the window the
regex (\d{4}) accepts at one position. -/
def digits4At : List Char → Option (List Char)
  | a :: b :: c :: d :: _ =>
    if a.isDigit && b.isDigit && c.isDigit && d.isDigit then some [a, b, c, d]
    else none
  | _ => none

/-- Leftmost regex match of (\d{4}): Python's re scans positions left to
right and takes the first position where four consecutive digits start
(Series.str.extract returns that first match). -/
def findWindow4 : List Char → Option (List Char)
  | [] => none
  | c :: rest =>
    match digits4At (c :: rest) with
    | some w => some w
    | none => findWindow4 rest

/-- Embedding of the ANO_REFERENCIA coercion of coerce_types on one cell:
astype("string") keeps NA, str.extract(r"(\d{4})") takes the leftmost
four-digit window (NA when there is none or the cell is NA), and
pd.to_numeric(...).astype("Int64") turns the four digits into an integer. -/
def coerce_ano_referencia (v : Option String) : Option ℕ :=
  v.bind fun s => (findWindow4 s.data).map digitsToNat

/-- Modelled from the spec for comparison with the code: the maximal digit
runs of the text, in order (worker, acc holds the current run reversed). -/
def digitRunsAux : List Char → List Char → List (List Char)
  | [], acc => if acc.isEmpty then [] else [acc.reverse]
  | c :: rest, acc =>
    if c.isDigit then digitRunsAux rest (c :: acc)
    else if acc.isEmpty then digitRunsAux rest []
    else acc.reverse :: digitRunsAux rest []

/-- Modelled from the spec: the maximal digit runs of the text. -/
def digitRuns (l : List Char) : List (List Char) := digitRunsAux l []

/-- Modelled from the spec: "extract the first run of exactly 4 digits from
the raw text field via pattern match; convert to nullable integer" — the
first maximal digit run whose length is exactly 4, null when no such run
exists. -/
def spec_first_exact4_run (s : String) : Option ℕ :=
  (((digitRuns s.data).filter (fun r => r.length == 4)).head?).map digitsToNat

theorem findWindow4_none_iff (l : List Char) :
    findWindow4 l = none ↔ ∀ i, digits4At (l.drop i) = none := by
  induction l with
  | nil =>
    constructor
    · intro _ i
      rw [List.drop_nil]
      rfl
    · intro _
      rfl
  | cons c rest ih =>
    cases h : digits4At (c :: rest) with
    | some w =>
      simp only [findWindow4, h]
      constructor
      · intro hf
        cases hf
      · intro hall
        have h0 := hall 0
        rw [List.drop_zero, h] at h0
        cases h0
    | none =>
      simp only [findWindow4, h]
      constructor
      · intro hf i
        cases i with
        | zero => simpa using h
        | succ i =>
          rw [List.drop_succ_cons]
          exact (ih.mp hf) i
      · intro hall
        apply ih.mpr
        intro i
        have := hall (i + 1)
        rwa [List.drop_succ_cons] at this

theorem findWindow4_some_iff (l : List Char) (w : List Char) :
    findWindow4 l = some w ↔
      ∃ i, digits4At (l.drop i) = some w ∧
        ∀ j, j < i → digits4At (l.drop j) = none := by
  induction l with
  | nil =>
    constructor
    · intro hf
      cases hf
    · rintro ⟨i, hi, -⟩
      rw [List.drop_nil] at hi
      cases hi
  | cons c rest ih =>
    cases h : digits4At (c :: rest) with
    | some w0 =>
      simp only [findWindow4, h]
      constructor
      · intro hw
        refine ⟨0, ?_, by omega⟩
        rw [List.drop_zero, h]
        exact hw
      · rintro ⟨i, hi, hmin⟩
        cases i with
        | zero =>
          rw [List.drop_zero, h] at hi
          exact hi
        | succ i =>
          have h0 := hmin 0 (Nat.succ_pos i)
          rw [List.drop_zero, h] at h0
          cases h0
    | none =>
      simp only [findWindow4, h]
      rw [ih]
      constructor
      · rintro ⟨i, hi, hmin⟩
        refine ⟨i + 1, ?_, ?_⟩
        · rwa [List.drop_succ_cons]
        · intro j hj
          cases j with
          | zero =>
            rw [List.drop_zero]
            exact h
          | succ j =>
            rw [List.drop_succ_cons]
            exact hmin j (by omega)
      · rintro ⟨i, hi, hmin⟩
        cases i with
        | zero =>
          rw [List.drop_zero, h] at hi
          cases hi
        | succ i =>
          rw [List.drop_succ_cons] at hi
          refine ⟨i, hi, ?_⟩
          intro j hj
          have := hmin (j + 1) (by omega)
          rwa [List.drop_succ_cons] at this

/-! ### Claim C6 (reference-year extraction) -/

/-- C6 counterexample: the claim says the reference year is the first run of
exactly 4 digits, null when no such run exists.  On the raw text
"Total 12345" the only digit run has length 5, so there is no run of exactly
4 digits and the claim requires null — but the regex (\d{4}) matches the
first four characters inside the longer run and the code yields 1234. -/
theorem c6_year_extraction_counterexample :
    coerce_ano_referencia (some "Total 12345") = some 1234 ∧
    spec_first_exact4_run "Total 12345" = none := by
  refine ⟨by decide, by decide⟩

/-- C6 (amended): the Type Coercer sets the reference year to the integer
formed by the leftmost four consecutive digits of the raw text — even when
they begin a longer digit run — and to null exactly when no four consecutive
digits occur anywhere; pd.NA stays null, and the spec's two examples hold:
"Ano 2023 (parcial)" yields 2023 and "sem ano" yields null. -/
theorem c6_year_extraction_amended :
    (∀ s : String, ∀ v : ℕ,
      (coerce_ano_referencia (some s) = some v ↔
        ∃ i w, digits4At (s.data.drop i) = some w ∧
          (∀ j, j < i → digits4At (s.data.drop j) = none) ∧
          v = digitsToNat w)) ∧
    (∀ s : String,
      (coerce_ano_referencia (some s) = none ↔
        ∀ i, digits4At (s.data.drop i) = none)) ∧
    coerce_ano_referencia (some "Ano 2023 (parcial)") = some 2023 ∧
    coerce_ano_referencia (some "sem ano") = none ∧
    coerce_ano_referencia none = none := by
  refine ⟨?_, ?_, by decide, by decide, rfl⟩
  · intro s v
    simp only [coerce_ano_referencia, Option.some_bind, Option.map_eq_some']
    constructor
    · rintro ⟨w, hw, hv⟩
      obtain ⟨i, hi, hmin⟩ := (findWindow4_some_iff s.data w).mp hw
      exact ⟨i, w, hi, hmin, hv.symm⟩
    · rintro ⟨i, w, hi, hmin, hv⟩
      exact ⟨w, (findWindow4_some_iff s.data w).mpr ⟨i, hi, hmin⟩, hv.symm⟩
  · intro s
    simp only [coerce_ano_referencia, Option.some_bind, Option.map_eq_none']
    exact findWindow4_none_iff s.data

/-- C6 witness: on "abc20235x" the leftmost four-digit window starts at index
3 and the code extracts 2023 although the digit run is five long. -/
theorem c6_witness :
    coerce_ano_referencia (some "abc20235x") = some 2023 :=
  (c6_year_extraction_amended.1 "abc20235x" 2023).mpr
    ⟨3, ['2', '0', '2', '3'], by decide, by decide, by decide⟩

/-! ### Aggregation Layer (utils_streamlit.py) -/

/-- Stable insertion of x before the first y it compares le to (worker of
stableSort). -/
def orderedInsertB (le : α → α → Bool) (x : α) : List α → List α
  | [] => [x]
  | y :: ys => if le x y then x :: y :: ys else y :: orderedInsertB le x ys

/-- Stable sort under a total preorder given as a Bool comparison.  A stable
sort of a list under a total preorder is unique, so this structurally
recursive insertion sort is the model of sort_values(kind="mergesort") and of
the ascending group-key order of pandas groupby(sort=True). -/
def stableSort (le : α → α → Bool) : List α → List α
  | [] => []
  | x :: xs => orderedInsertB le x (stableSort le xs)

theorem orderedInsertB_perm (le : α → α → Bool) (x : α) :
    ∀ l : List α, (orderedInsertB le x l).Perm (x :: l) := by
  intro l
  induction l with
  | nil => exact List.Perm.refl _
  | cons y ys ih =>
    by_cases h : le x y = true
    · simp [orderedInsertB, h]
    · simp only [orderedInsertB, h, if_false, Bool.false_eq_true]
      exact ((ih.cons y).trans (List.Perm.swap x y ys))

theorem stableSort_perm (le : α → α → Bool) :
    ∀ l : List α, (stableSort le l).Perm l := by
  intro l
  induction l with
  | nil => exact List.Perm.refl _
  | cons x xs ih =>
    exact (orderedInsertB_perm le x (stableSort le xs)).trans (ih.cons x)

theorem mem_stableSort (le : α → α → Bool) (l : List α) (a : α) :
    a ∈ stableSort le l ↔ a ∈ l :=
  (stableSort_perm le l).mem_iff

/-- Ascending Python-string order for pandas group keys. -/
def strLe (a b : String) : Bool := charListLe a.data b.data

/-- The sorted distinct group keys pandas groupby(sort=True) produces. -/
def sortedKeys (l : List String) : List String := stableSort strLe l.dedup

/-- A row of the unified table as the Aggregation Layer reads it: the
canonical cells these aggregations consult; None models NA.  VALOR_PAGO is
already numeric in the unified table, so _ensure_numeric_valor is the
identity on the values. -/
structure AggRow where
  ano : Option Int
  processo : Option String
  beneficiario : Option String
  modalidade : Option String
  grandeArea : Option String
  area : Option String
  subarea : Option String
  valor : Option ℚ
deriving DecidableEq

/-- A DataFrame for the aggregations: which columns are present (so that the
missing-column checks of the source are expressible) and the rows. -/
structure AggFrame where
  cols : List String
  rows : List AggRow
deriving DecidableEq

/-- The errors the aggregation functions raise: the typed ValueError carrying
the missing column's name, and the pandas KeyError a bare df[col] indexing
raises. -/
inductive AggError
  | missingColumn (c : String)
  | keyError (c : String)
deriving DecidableEq

/-- Decidable equality of Except results, so that concrete aggregation
outcomes evaluate. -/
instance exceptDecEq {ε α : Type} [DecidableEq ε] [DecidableEq α] :
    DecidableEq (Except ε α)
  | Except.ok a, Except.ok b =>
    if h : a = b then isTrue (by rw [h])
    else isFalse (by intro hc; cases hc; exact h rfl)
  | Except.ok _, Except.error _ => isFalse (by intro hc; cases hc)
  | Except.error _, Except.ok _ => isFalse (by intro hc; cases hc)
  | Except.error e, Except.error f =>
    if h : e = f then isTrue (by rw [h])
    else isFalse (by intro hc; cases hc; exact h rfl)

/-- Embedding of _filter_year (utils_streamlit.py lines 197-200): no year
gives the frame back; otherwise keep the rows whose ANO_REFERENCIA equals
the year (NA compares unequal), where the bare df[ANO_REFERENCIA] indexing
raises a KeyError when the column is absent. -/
def filter_year (df : AggFrame) (year : Option Int) : Except AggError AggFrame :=
  match year with
  | none => Except.ok df
  | some y =>
    if "ANO_REFERENCIA" ∈ df.cols then
      Except.ok ⟨df.cols, df.rows.filter (fun r => r.ano == some y)⟩
    else Except.error (AggError.keyError "ANO_REFERENCIA")

/-- Model of a pandas groupby sum over VALOR_PAGO: NaN cells contribute
nothing (skipna), an all-NaN group sums to 0 (min_count=0). -/
def sumValor (l : List AggRow) : ℚ := (l.map (fun r => r.valor.getD 0)).sum

/-- One output row of agg_invest_by_category. -/
structure CatOut where
  modalidade : String
  valor_em_reais : ℚ
  n_unicos : ℕ
deriving DecidableEq

/-- The final sort_values("valor_em_reais", ascending=False,
kind="mergesort") comparison. -/
def catOutDesc (a b : CatOut) : Bool := decide (b.valor_em_reais ≤ a.valor_em_reais)

/-- The censored placeholder names excluded by the per-beneficiary branch
(utils_streamlit.py line 284) via df[~df[BENEFICIARIO].isin(censored_names)];
an NA beneficiary is not in the list, so its row passes this mask. -/
def notCensored (r : AggRow) : Bool :=
  match r.beneficiario with
  | some b => !(b == "XXXX" || b == "XXX XXX XXX")
  | none => true

/-- The dropna(subset=[entity, MODALIDADE]) base of the two per-entity mean
branches. -/
def entityBase (rows : List AggRow) (key : AggRow → Option String) : List AggRow :=
  rows.filter (fun r => (key r).isSome && r.modalidade.isSome)

/-- The distinct entities grouped with a category, in pandas group-key
order. -/
def entityKeys (base : List AggRow) (key : AggRow → Option String) (m : String) :
    List String :=
  sortedKeys ((base.filter (fun r => r.modalidade == some m)).filterMap key)

/-- The (category, entity) pairwise sum of VALOR_PAGO — the first groupby of
the per-entity mean branches. -/
def entitySum (base : List AggRow) (key : AggRow → Option String) (m b : String) :
    ℚ :=
  sumValor (base.filter (fun r => r.modalidade == some m && key r == some b))

/-- The second groupby of the per-entity mean branches: per category, the
mean of the per-entity sums and the count of distinct entities. -/
def entityMeanOut (rows : List AggRow) (key : AggRow → Option String) :
    List CatOut :=
  let base := entityBase rows key
  (sortedKeys (base.filterMap (fun r => r.modalidade))).map (fun m =>
    let bs := entityKeys base key m
    ⟨m, ((bs.map (fun b => entitySum base key m b)).sum) / (bs.length : ℚ),
      bs.length⟩)

/-- The three metric modes of agg_invest_by_category; hsum stands for the
string literal "sum". -/
inductive How
  | hsum
  | per_beneficiary_mean
  | per_process_mean
deriving DecidableEq

/-- Embedding of agg_invest_by_category (utils_streamlit.py lines 260-301):
ensure VALOR_PAGO numeric (identity here), filter by the optional year, raise
the typed missing-column ValueError when MODALIDADE — or the entity column
the chosen metric needs — is absent, compute the chosen metric, and stably
sort the categories by value, descending. -/
def agg_invest_by_category (df : AggFrame) (year : Option Int) (how : How) :
    Except AggError (List CatOut) :=
  match filter_year df year with
  | Except.error e => Except.error e
  | Except.ok dfy =>
    if "MODALIDADE" ∈ dfy.cols then
      match how with
      | How.hsum =>
        let base := dfy.rows.filter (fun r => r.modalidade.isSome)
        Except.ok (stableSort catOutDesc
          ((sortedKeys (base.filterMap (fun r => r.modalidade))).map (fun m =>
            let grp := base.filter (fun r => r.modalidade == some m)
            (⟨m, sumValor grp, grp.length⟩ : CatOut))))
      | How.per_beneficiary_mean =>
        if "BENEFICIARIO" ∈ dfy.cols then
          Except.ok (stableSort catOutDesc
            (entityMeanOut (dfy.rows.filter notCensored) (fun r => r.beneficiario)))
        else Except.error (AggError.missingColumn "BENEFICIARIO")
      | How.per_process_mean =>
        if "PROCESSO" ∈ dfy.cols then
          Except.ok (stableSort catOutDesc
            (entityMeanOut dfy.rows (fun r => r.processo)))
        else Except.error (AggError.missingColumn "PROCESSO")
    else Except.error (AggError.missingColumn "MODALIDADE")

/-- The Literal level argument of agg_total_invest_by_area. -/
inductive AreaLevel
  | grande_area
  | area
  | subarea
deriving DecidableEq

/-- The column name each level denotes. -/
def AreaLevel.colName : AreaLevel → String
  | AreaLevel.grande_area => "GRANDE_AREA"
  | AreaLevel.area => "AREA"
  | AreaLevel.subarea => "SUBAREA"

/-- The cell each level reads from a row. -/
def AreaLevel.get : AreaLevel → AggRow → Option String
  | AreaLevel.grande_area, r => r.grandeArea
  | AreaLevel.area, r => r.area
  | AreaLevel.subarea, r => r.subarea

/-- One output row of agg_total_invest_by_area. -/
structure AreaOut where
  key : String
  valor_total : ℚ
  n_linhas : ℕ
deriving DecidableEq

/-- The final sort_values("valor_total", ascending=False, kind="mergesort")
comparison. -/
def areaOutDesc (a b : AreaOut) : Bool := decide (b.valor_total ≤ a.valor_total)

/-- Embedding of agg_total_invest_by_area (utils_streamlit.py lines 239-256):
ensure VALOR_PAGO numeric (identity here), filter by the optional year, raise
the typed missing-column ValueError when the level column is absent, drop the
rows with a null level cell, sum VALOR_PAGO and count rows per level value,
and stably sort by total, descending. -/
def agg_total_invest_by_area (df : AggFrame) (year : Option Int)
    (level : AreaLevel) : Except AggError (List AreaOut) :=
  match filter_year df year with
  | Except.error e => Except.error e
  | Except.ok dfy =>
    if level.colName ∈ dfy.cols then
      let base := dfy.rows.filter (fun r => (level.get r).isSome)
      Except.ok (stableSort areaOutDesc
        ((sortedKeys (base.filterMap level.get)).map (fun k =>
          let grp := base.filter (fun r => level.get r == some k)
          (⟨k, sumValor grp, grp.length⟩ : AreaOut))))
    else Except.error (AggError.missingColumn level.colName)

/-! ### Claims C7, C8 and C10 (Aggregation Layer) -/

/-- The rows surviving the optional year filter (what _filter_year keeps once
it has not raised). -/
def yearRows (df : AggFrame) (year : Option Int) : List AggRow :=
  match year with
  | none => df.rows
  | some y => df.rows.filter (fun r => r.ano == some y)

/-- The rows the per-beneficiary-mean metric aggregates: year filter, censor
filter, dropna on beneficiary and category. -/
def pbmBase (df : AggFrame) (year : Option Int) : List AggRow :=
  entityBase ((yearRows df year).filter notCensored) (fun r => r.beneficiario)

/-- The distinct beneficiaries of one category in the per-beneficiary-mean
base. -/
def pbmBenefs (df : AggFrame) (year : Option Int) (m : String) : List String :=
  entityKeys (pbmBase df year) (fun r => r.beneficiario) m

/-- The summed paid amount of one (category, beneficiary) pair in the
per-beneficiary-mean base. -/
def pbmSum (df : AggFrame) (year : Option Int) (m b : String) : ℚ :=
  entitySum (pbmBase df year) (fun r => r.beneficiario) m b

/-- The spec's synthetic per-beneficiary-mean dataset: one category, with
beneficiary X paid 100 and 50 and beneficiary Y paid 300. -/
def synthRow (b : String) (v : ℚ) : AggRow :=
  ⟨some 2024, some "p", some b, some "BOLSA", none, none, none, some v⟩

/-- The synthetic frame of the spec's per-beneficiary-mean test. -/
def synthFrame : AggFrame :=
  ⟨["ANO_REFERENCIA", "PROCESSO", "BENEFICIARIO", "MODALIDADE", "VALOR_PAGO"],
   [synthRow "X" 100, synthRow "X" 50, synthRow "Y" 300]⟩

unseal Rat.add Rat.mul Rat.inv Rat.sub Rat.ofScientific in
/-- C7: every category row agg_invest_by_category emits in
per-beneficiary-mean mode carries the mean of the per-beneficiary sums —
paid amount summed per (category, beneficiary) pair first, the resulting
sums averaged across the category's distinct beneficiaries — together with
the count of those beneficiaries, so the metric weights by beneficiary and
not by row; on the spec's synthetic one-category dataset (X: 100 and 50,
Y: 300) it returns (150 + 300) / 2 = 225 and not the flat row mean
(100 + 50 + 300) / 3. -/
theorem c7_per_beneficiary_mean_weighting :
    (∀ (df : AggFrame) (year : Option Int) (out : List CatOut),
      agg_invest_by_category df year How.per_beneficiary_mean = Except.ok out →
      ∀ e ∈ out,
        e.n_unicos = (pbmBenefs df year e.modalidade).length ∧
        e.valor_em_reais
          = ((pbmBenefs df year e.modalidade).map
              (pbmSum df year e.modalidade)).sum
            / ((pbmBenefs df year e.modalidade).length : ℚ)) ∧
    agg_invest_by_category synthFrame none How.per_beneficiary_mean
      = Except.ok [⟨"BOLSA", 225, 2⟩] ∧
    (225 : ℚ) = (150 + 300) / 2 ∧
    (225 : ℚ) ≠ (100 + 50 + 300) / 3 := by
  refine ⟨?_, by decide, by decide, by decide⟩
  intro df year out h e he
  have hrows : ∀ dfy : AggFrame,
      filter_year df year = Except.ok dfy →
      dfy.cols = df.cols ∧ dfy.rows = yearRows df year := by
    intro dfy hdfy
    cases year with
    | none =>
      cases hdfy
      exact ⟨rfl, rfl⟩
    | some y =>
      simp only [filter_year] at hdfy
      by_cases hano : "ANO_REFERENCIA" ∈ df.cols
      · rw [if_pos hano] at hdfy
        cases hdfy
        exact ⟨rfl, rfl⟩
      · rw [if_neg hano] at hdfy
        cases hdfy
  simp only [agg_invest_by_category] at h
  split at h
  · cases h
  · rename_i dfy heq
    obtain ⟨hcols, hrws⟩ := hrows dfy heq
    split at h
    · split at h
      · injection h with h2
        subst h2
        rw [mem_stableSort] at he
        simp only [entityMeanOut, List.mem_map] at he
        obtain ⟨m, hm, rfl⟩ := he
        rw [hrws]
        exact ⟨rfl, rfl⟩
      · cases h
    · cases h

/-- C8: the cited aggregation functions raise the typed missing-column error
when the dimension column they group by is absent (whenever the year filter
itself can run, i.e. the year column is present or no year filter is given),
and return an empty result — not an error — when the optional year filter
matches no rows while every consulted column is present. -/
theorem c8_missing_column_and_empty_filter :
    (∀ (df : AggFrame) (year : Option Int) (level : AreaLevel),
      ("ANO_REFERENCIA" ∈ df.cols ∨ year = none) →
      level.colName ∉ df.cols →
      agg_total_invest_by_area df year level
        = Except.error (AggError.missingColumn level.colName)) ∧
    (∀ (df : AggFrame) (year : Option Int) (how : How),
      ("ANO_REFERENCIA" ∈ df.cols ∨ year = none) →
      "MODALIDADE" ∉ df.cols →
      agg_invest_by_category df year how
        = Except.error (AggError.missingColumn "MODALIDADE")) ∧
    (∀ (df : AggFrame) (y : Int) (level : AreaLevel),
      "ANO_REFERENCIA" ∈ df.cols → level.colName ∈ df.cols →
      (∀ r ∈ df.rows, r.ano ≠ some y) →
      agg_total_invest_by_area df (some y) level = Except.ok []) ∧
    (∀ (df : AggFrame) (y : Int) (how : How),
      "ANO_REFERENCIA" ∈ df.cols → "MODALIDADE" ∈ df.cols →
      "BENEFICIARIO" ∈ df.cols → "PROCESSO" ∈ df.cols →
      (∀ r ∈ df.rows, r.ano ≠ some y) →
      agg_invest_by_category df (some y) how = Except.ok []) := by
  have hfil : ∀ (df : AggFrame) (y : Int),
      (∀ r ∈ df.rows, r.ano ≠ some y) →
      df.rows.filter (fun r => r.ano == some y) = [] := by
    intro df y hniy
    rw [List.filter_eq_nil_iff]
    intro r hr
    simpa using hniy r hr
  refine ⟨?_, ?_, ?_, ?_⟩
  · intro df year level hok hmiss
    cases year with
    | none => simp [agg_total_invest_by_area, filter_year, hmiss]
    | some y =>
      rcases hok with hano | hnone
      · simp [agg_total_invest_by_area, filter_year, hano, hmiss]
      · cases hnone
  · intro df year how hok hmiss
    cases year with
    | none =>
      cases how <;> simp [agg_invest_by_category, filter_year, hmiss]
    | some y =>
      rcases hok with hano | hnone
      · cases how <;> simp [agg_invest_by_category, filter_year, hano, hmiss]
      · cases hnone
  · intro df y level hano hcol hniy
    simp [agg_total_invest_by_area, filter_year, hano, hcol, hfil df y hniy,
      sortedKeys, stableSort]
  · intro df y how hano hmod hben hproc hniy
    cases how <;>
      simp [agg_invest_by_category, filter_year, hano, hmod, hben, hproc,
        hfil df y hniy, entityMeanOut, entityBase, sortedKeys, stableSort]

/-- Removing the censored-beneficiary rows first changes nothing for the
per-beneficiary-mean pipeline: the two filters commute with the year filter
and the censor filter is idempotent. -/
theorem censor_filter_absorb (l : List AggRow) (p : AggRow → Bool) :
    ((l.filter notCensored).filter p).filter notCensored
      = (l.filter p).filter notCensored := by
  rw [List.filter_filter, List.filter_filter, List.filter_filter]
  apply List.filter_congr
  intro a _
  cases hc : notCensored a <;> cases hp : p a <;> simp [hc, hp]

theorem censor_filter_idem (l : List AggRow) :
    (l.filter notCensored).filter notCensored = l.filter notCensored := by
  rw [List.filter_filter]
  apply List.filter_congr
  intro a _
  cases hc : notCensored a <;> simp [hc]

/-- A two-row frame whose first row belongs to the censored beneficiary
"XXXX" (paid 1000) and whose second belongs to "A" (paid 100), same category
and same process. -/
def censRow (b : String) (v : ℚ) : AggRow :=
  ⟨some 2024, some "p", some b, some "BOLSA", none, none, none, some v⟩

/-- The concrete frame exercising the censored-name exclusion. -/
def censFrame : AggFrame :=
  ⟨["ANO_REFERENCIA", "PROCESSO", "BENEFICIARIO", "MODALIDADE", "VALOR_PAGO"],
   [censRow "XXXX" 1000, censRow "A" 100]⟩

unseal Rat.add Rat.mul Rat.inv Rat.sub Rat.ofScientific in
/-- C10: in per-beneficiary-mean mode agg_invest_by_category gives the same
result whether or not the rows of the censored placeholder beneficiaries
("XXXX", "XXX XXX XXX") are deleted beforehand — they never contribute to
the per-beneficiary mean or to the beneficiary count — while the sum and
per-process-mean modes apply no such exclusion: on the concrete frame with a
censored row paid 1000 and a genuine row paid 100, the per-beneficiary mean
is 100 over one beneficiary, but the category sum is 1100 over both rows and
the per-process mean is 1100 over the shared process. -/
theorem c10_censored_beneficiaries :
    (∀ (df : AggFrame) (year : Option Int),
      agg_invest_by_category df year How.per_beneficiary_mean
        = agg_invest_by_category ⟨df.cols, df.rows.filter notCensored⟩ year
            How.per_beneficiary_mean) ∧
    agg_invest_by_category censFrame none How.per_beneficiary_mean
      = Except.ok [⟨"BOLSA", 100, 1⟩] ∧
    agg_invest_by_category censFrame none How.hsum
      = Except.ok [⟨"BOLSA", 1100, 2⟩] ∧
    agg_invest_by_category censFrame none How.per_process_mean
      = Except.ok [⟨"BOLSA", 1100, 1⟩] := by
  refine ⟨?_, by decide, by decide, by decide⟩
  intro df year
  cases year with
  | none =>
    simp only [agg_invest_by_category, filter_year]
    rw [censor_filter_idem]
  | some y =>
    by_cases hano : "ANO_REFERENCIA" ∈ df.cols
    · simp only [agg_invest_by_category, filter_year, hano, if_pos]
      rw [censor_filter_absorb]
    · simp only [agg_invest_by_category, filter_year, hano, if_neg,
        not_false_iff]
